import Mathlib

/-
Verification development for the Binance FIX API client
(request/response correlation engine).

The Go sources are shallowly embedded:
  * quickfix messages become association lists of (tag, raw string value);
  * the pending-call map (Go map[string]*call) becomes an association
    list with replace-on-insert semantics;
  * Go (value, error) returns become Except / Option results;
  * external collaborators (the quickfix engine's transmit step, message
    re-parsing, the wall clock, context cancellation) become explicit
    parameters describing their observable outcome at the boundary.
Each definition carries a comment naming the Go function it embeds.
-/

namespace BinanceFix

/-- Embeds the distinct Go error values produced by the sources
(utils.go var block, client.go Start, decode errors, parse errors).
Distinct constructors model distinct Go error values. -/
inductive GoError where
  | closed
  | logonTimedOut
  | ctxCanceled
  | nilPrivateKeyValue
  | invalidEd25519Key
  | invalidRequestIDTag
  | fieldNotFound (tag : Nat)
  | parseIntInvalid (s : String)
  | parseFloatInvalid (s : String)
  | parseTimeInvalid (s : String)
  | pkcs8Invalid
  | settingMissing (name : String)
  | emptySettings
  | initiatorCreateFailed
  | initiatorStartFailed
  | transmitFailed
  | reasonText (s : String)
  deriving DecidableEq, Repr

/-- FIX tag numbers used by the sources (const.go and quickfixgo tag package). -/
def tagBeginString : Nat := 8

def tagClOrdID : Nat := 11

def tagCumQty : Nat := 14

def tagMsgType : Nat := 35

def tagOrderID : Nat := 37

def tagOrderQty : Nat := 38

def tagOrdStatus : Nat := 39

def tagOrdType : Nat := 40

def tagPrice : Nat := 44

def tagSenderCompID : Nat := 49

def tagSendingTime : Nat := 52

def tagSide : Nat := 54

def tagSymbol : Nat := 55

def tagTargetCompID : Nat := 56

def tagText : Nat := 58

def tagTimeInForce : Nat := 59

def tagTransactTime : Nat := 60

def tagMaxFloor : Nat := 111

def tagGetLimitReqID : Nat := 6136

def tagCumQuoteQty : Nat := 25017

def tagOrderCreationTime : Nat := 25018

def tagWorkingTime : Nat := 25023

/-- Decidable equality for Except results, used to evaluate the embedded
functions on concrete inputs. -/
def exceptDecEq {e a : Type} [DecidableEq e] [DecidableEq a] :
    DecidableEq (Except e a) := fun x y =>
  match x, y with
  | Except.error u, Except.error v =>
    if h : u = v then Decidable.isTrue (by rw [h])
    else Decidable.isFalse (fun hc => h (by injection hc))
  | Except.error _, Except.ok _ => Decidable.isFalse (fun hc => Except.noConfusion hc)
  | Except.ok _, Except.error _ => Decidable.isFalse (fun hc => Except.noConfusion hc)
  | Except.ok u, Except.ok v =>
    if h : u = v then Decidable.isTrue (by rw [h])
    else Decidable.isFalse (fun hc => h (by injection hc))

instance {e a : Type} [DecidableEq e] [DecidableEq a] : DecidableEq (Except e a) :=
  exceptDecEq

/-- Looks up a tag in a field map (quickfix FieldMap read: Has + GetString). -/
def fieldGet (fs : List (Nat × String)) (t : Nat) : Option String :=
  (fs.find? (fun p => p.1 == t)).map Prod.snd

/-- Sets a tag in a field map, replacing an existing value
(quickfix FieldMap.Set / SetString semantics). -/
def fieldSet (fs : List (Nat × String)) (t : Nat) (v : String) : List (Nat × String) :=
  match fs with
  | [] => [(t, v)]
  | p :: rest => if p.1 == t then (t, v) :: rest else p :: fieldSet rest t v

/-- Embeds a quickfix.Message: header and body field maps.
The reparses flag models, at the boundary, whether
quickfix.ParseMessage(msg.String()) succeeds (the codec itself is an
external collaborator and out of scope). -/
structure Msg where
  header : List (Nat × String)
  body : List (Nat × String)
  reparses : Bool
  deriving DecidableEq, Repr

/-- Embeds msg.MsgType(): reads the MsgType header tag (35); the Go call
errors when the tag is absent, modeled by none. -/
def Msg.getMsgType (m : Msg) : Option String :=
  fieldGet m.header tagMsgType

/-- Embeds copyMessage (utils.go): re-parse of the serialized message,
failing exactly when the boundary flag says ParseMessage would fail. -/
def copyMessage (m : Msg) : Option Msg :=
  if m.reparses then some m else none

/-- Wire message-type strings (const.go: msgType_LIMIT_RESPONSE,
enum.MsgType_EXECUTION_REPORT). -/
def msgTypeLimitResponse : String := "XLR"

def msgTypeExecutionReport : String := "8"

/-- Embeds getReqIDTagFromMsgType with the mappedMsgTypeTag map
(const.go: limit response maps to tag 6136, execution report to ClOrdID 11). -/
def getReqIDTagFromMsgType (mt : String) : Except GoError Nat :=
  if mt == msgTypeLimitResponse then Except.ok tagGetLimitReqID
  else if mt == msgTypeExecutionReport then Except.ok tagClOrdID
  else Except.error GoError.invalidRequestIDTag

/-- Embeds the call record (utils.go type call): request, response, and the
1-buffered done channel, modeled by the list of values sent on it plus a
closed flag. -/
structure CallRec where
  request : Msg
  response : Option Msg
  doneMsgs : List (Option GoError)
  doneClosed : Bool
  deriving DecidableEq, Repr

/-- Builds the fresh call record of send (client.go line 200). -/
def newCall (m : Msg) : CallRec :=
  { request := m, response := none, doneMsgs := [], doneClosed := false }

/-- Embeds a read of the Go map c.pending (keys are unique in a Go map):
the value of the first entry with the given key. -/
def mapGet (t : List (String × CallRec)) (id : String) : Option CallRec :=
  match t with
  | [] => none
  | p :: rest => if p.1 == id then some p.2 else mapGet rest id

/-- Embeds delete(c.pending, id): removes the entries with that key (on
the unique-key lists produced by mapInsert, exactly one, as in Go). -/
def mapDelete (t : List (String × CallRec)) (id : String) : List (String × CallRec) :=
  match t with
  | [] => []
  | p :: rest => if p.1 == id then mapDelete rest id else p :: mapDelete rest id

/-- Embeds c.pending[id] = cc: replaces an existing entry or appends. -/
def mapInsert (t : List (String × CallRec)) (id : String) (cc : CallRec) :
    List (String × CallRec) :=
  match t with
  | [] => [(id, cc)]
  | p :: rest => if p.1 == id then (id, cc) :: rest else p :: mapInsert rest id cc

/-- Embeds the mutable Client state shared between caller threads and the
engine callbacks: the atomic connected flag, the pending-call map, and the
immutable session identity used by addCommonHeaders. -/
structure ClientState where
  connected : Bool
  pending : List (String × CallRec)
  beginString : String
  targetCompID : String
  senderCompID : String
  deriving DecidableEq, Repr

/-- Embeds addCommonHeaders (client.go lines 185-190); now stands for the
wall-clock SendingTime value. -/
def addCommonHeaders (c : ClientState) (now : String) (m : Msg) : Msg :=
  let h1 := fieldSet m.header tagBeginString c.beginString
  let h2 := fieldSet h1 tagTargetCompID c.targetCompID
  let h3 := fieldSet h2 tagSenderCompID c.senderCompID
  { m with header := fieldSet h3 tagSendingTime now }

/-- Embeds the registration step of send (client.go lines 195-201): the
connected-flag check, header decoration, fresh call record, and the
insertion into c.pending, all before quickfix.Send is invoked.
This is the register operation of the specification. -/
def register (c : ClientState) (id : String) (m : Msg) (now : String) :
    ClientState × Except GoError CallRec :=
  if !c.connected then (c, Except.error GoError.closed)
  else
    let cc := newCall (addCommonHeaders c now m)
    ({ c with pending := mapInsert c.pending id cc }, Except.ok cc)

/-- Embeds send (client.go lines 192-211): register, then the
quickfix.Send transmit step whose outcome is the boundary parameter; on
transmit failure the just-registered entry is deleted under the mutex and
the transmit error propagated. -/
def send (c : ClientState) (id : String) (m : Msg) (now : String)
    (transmit : Except GoError Unit) : ClientState × Except GoError CallRec :=
  match register c id m now with
  | (c1, Except.error e) => (c1, Except.error e)
  | (c1, Except.ok cc) =>
    match transmit with
    | Except.error e => ({ c1 with pending := mapDelete c1.pending id }, Except.error e)
    | Except.ok _ => (c1, Except.ok cc)

/-- Models one iteration of the polling loop in Start (client.go lines
151-161) as the values the loop observes: whether timeoutCtx.Done() is
ready because the 30-second timer fired, whether it is ready because the
caller's ctx was canceled (context.WithTimeout makes Done fire on either),
and the value read from the atomic connected flag. -/
structure StartObs where
  timedOut : Bool
  cancelled : Bool
  connected : Bool
  deriving DecidableEq, Repr

/-- Embeds the polling loop of Start (client.go lines 151-161): the select
checks timeoutCtx.Done() first and returns errors.New with text logon
timed out in that case, whatever made Done ready; otherwise it returns nil
once IsConnected() reads true; otherwise it sleeps and loops. The
observation list is finite fuel; none means the loop had not terminated
within the observations supplied (in the program, the 30-second timer
guarantees a done observation eventually occurs). -/
def startLoop : List StartObs → Option (Except GoError Unit)
  | [] => none
  | o :: rest =>
    if o.timedOut || o.cancelled then some (Except.error GoError.logonTimedOut)
    else if o.connected then some (Except.ok ())
    else startLoop rest

/-- Embeds Start (client.go lines 141-162): c.initiator.Start() first,
propagating its error; then the polling loop. -/
def clientStart (engineStart : Except GoError Unit) (obs : List StartObs) :
    Option (Except GoError Unit) :=
  match engineStart with
  | Except.error e => some (Except.error e)
  | Except.ok _ => startLoop obs

/-- Embeds the loop body effect of OnLogout on one call record
(interface.go lines 31-34): call.done receives ErrClosed and the channel
is closed. -/
def signalClosed (cc : CallRec) : CallRec :=
  { cc with doneMsgs := cc.doneMsgs ++ [some GoError.closed], doneClosed := true }

/-- Embeds the range loop of OnLogout (interface.go lines 31-34) over the
pending map (the list fixes one iteration order). Sending on an
already-closed channel panics in Go; the deferred recover in OnLogout
catches it and the function returns, leaving the remaining entries
untouched. The Bool reports whether such a panic occurred. No entry is
ever deleted from the map by this loop. -/
def drainLoop : List (String × CallRec) → List (String × CallRec) × Bool
  | [] => ([], false)
  | (id, cc) :: rest =>
    if cc.doneClosed then ((id, cc) :: rest, true)
    else
      let r := drainLoop rest
      ((id, signalClosed cc) :: r.1, r.2)

/-- Embeds OnLogout (interface.go lines 22-35): stores false into the
connected flag, then signals each pending call; the Bool reports a
recovered panic. -/
def onLogout (c : ClientState) : ClientState × Bool :=
  let r := drainLoop c.pending
  ({ c with connected := false, pending := r.1 }, r.2)

/-- Embeds the possible outcomes of FromApp (interface.go lines 62-105)
toward the engine and the process: reject models returning a
MessageRejectError (the engine sends a protocol Reject and the session
continues); drop models the logged nil return for an unmapped message
type; unmatched models a discarded message with no pending call;
delivered models signaling the matched call with a nil error and the
copied response; fatalExit models l.Fatalw on copy failure, which logs
and exits the whole process; panicked models the unrecovered panic of
sending on an already-closed done channel. -/
inductive FromAppOutcome where
  | reject (e : GoError)
  | drop
  | unmatched
  | delivered (id : String) (resp : Msg)
  | fatalExit
  | panicked
  deriving DecidableEq, Repr

/-- Embeds the identifier-extraction prefix of FromApp (interface.go lines
63-80): message type, mapped request-ID tag, then the tag's value from the
body; an early return is reported as the outcome it produces. -/
def extractReqID (m : Msg) : Sum FromAppOutcome String :=
  match m.getMsgType with
  | none => Sum.inl (FromAppOutcome.reject (GoError.fieldNotFound tagMsgType))
  | some mt =>
    match getReqIDTagFromMsgType mt with
    | Except.error _ => Sum.inl FromAppOutcome.drop
    | Except.ok t =>
      match fieldGet m.body t with
      | none => Sum.inl (FromAppOutcome.reject (GoError.fieldNotFound t))
      | some id => Sum.inr id

/-- Embeds FromApp (interface.go lines 62-105): after extraction, the
pending map is read and the entry deleted under the mutex; if a call
matched, the message is copied (copy failure hits l.Fatalw, i.e. process
exit), then the call is signaled with a nil error on its done channel
(which panics if that channel was already closed by a logout that left
the entry behind). -/
def fromApp (c : ClientState) (m : Msg) : ClientState × FromAppOutcome :=
  match extractReqID m with
  | Sum.inl o => (c, o)
  | Sum.inr id =>
    let callOpt := mapGet c.pending id
    let c1 := { c with pending := mapDelete c.pending id }
    match callOpt with
    | none => (c1, FromAppOutcome.unmatched)
    | some cc =>
      match copyMessage m with
      | none => (c1, FromAppOutcome.fatalExit)
      | some resp =>
        if cc.doneClosed then (c1, FromAppOutcome.panicked)
        else (c1, FromAppOutcome.delivered id resp)

/-- Runs FromApp over a sequence of inbound messages, collecting the
outcomes. -/
def processAll (c : ClientState) (ms : List Msg) : ClientState × List FromAppOutcome :=
  match ms with
  | [] => (c, [])
  | m :: rest =>
    let r := fromApp c m
    let r2 := processAll r.1 rest
    (r2.1, r.2 :: r2.2)

/-- Tests whether an outcome is a delivery to the caller registered at id. -/
def isDeliveryTo (id : String) : FromAppOutcome → Bool
  | FromAppOutcome.delivered i _ => i == id
  | _ => false

/-- Counts deliveries to id in a list of outcomes. -/
def deliveries (id : String) (os : List FromAppOutcome) : Nat :=
  os.countP (isDeliveryTo id)

/-- Checks that all characters are decimal digits. -/
def allDigits (cs : List Char) : Bool :=
  cs.all Char.isDigit

/-- Value of a digit string. -/
def digitsToNat (cs : List Char) : Nat :=
  cs.foldl (fun a c => a * 10 + (c.toNat - 48)) 0

/-- Splits a leading sign (strconv number syntax). -/
def splitSign : List Char → Int × List Char
  | '+' :: rest => (1, rest)
  | '-' :: rest => (-1, rest)
  | cs => (1, cs)

/-- Embeds strconv.ParseInt(s, 10, 64): optional sign, at least one digit,
64-bit signed range; anything else errors (in particular the empty
string). -/
def goParseInt (s : String) : Except GoError Int :=
  let sp := splitSign s.toList
  if sp.2.isEmpty then Except.error (GoError.parseIntInvalid s)
  else if allDigits sp.2 then
    let v : Int := sp.1 * (digitsToNat sp.2 : Int)
    if -(2 ^ 63 : Int) ≤ v ∧ v < 2 ^ 63 then Except.ok v
    else Except.error (GoError.parseIntInvalid s)
  else Except.error (GoError.parseIntInvalid s)

/-- Embeds a decimal number value as an exact scaled decimal, mantissa
times ten to the minus scale, mirroring the shopspring Decimal the Go
code carries its quantities in (the final lossy float64 conversion is not
the subject of any claim). -/
structure GoDecimal where
  mantissa : Int
  scale : Nat
  deriving DecidableEq, Repr

/-- Embeds the decimal-number parsing done by the engine's typed fields
and by strconv.ParseFloat on the plain decimal strings FIX carries:
optional sign, digits with at most one decimal point, at least one
digit. -/
def goParseDecimal (s : String) : Except GoError GoDecimal :=
  let sp := splitSign s.toList
  let body := sp.2
  let intPart := body.takeWhile (fun c => c != '.')
  let rest := body.dropWhile (fun c => c != '.')
  match rest with
  | [] =>
    if intPart.isEmpty || !allDigits intPart then Except.error (GoError.parseFloatInvalid s)
    else Except.ok ⟨sp.1 * (digitsToNat intPart : Int), 0⟩
  | _ :: frac =>
    if frac.any (fun c => c == '.') then Except.error (GoError.parseFloatInvalid s)
    else if (intPart.isEmpty && frac.isEmpty) || !allDigits intPart || !allDigits frac then
      Except.error (GoError.parseFloatInvalid s)
    else
      Except.ok ⟨sp.1 * ((digitsToNat intPart * 10 ^ frac.length + digitsToNat frac : Nat) : Int),
        frac.length⟩

/-- Embeds a Go time.Time value by the validated text it was parsed from;
the zero value of time.Time is modeled by the empty text. No claim
reasons about calendar arithmetic. -/
structure GoTime where
  text : String
  deriving DecidableEq, Repr

/-- Shape of the fixed date-time prefix YYYYMMDD-HH:MM:SS. -/
def basicTimeShape : List Char → Bool
  | [a, b, c, d, e, f, g, h, '-', i, j, ':', k, l, ':', m, n] =>
    allDigits [a, b, c, d, e, f, g, h, i, j, k, l, m, n]
  | _ => false

/-- Shape of a dot followed by exactly n digits. -/
def fracShape (cs : List Char) (n : Nat) : Bool :=
  match cs with
  | '.' :: rest => rest.length == n && allDigits rest
  | _ => false

/-- Embeds time.Parse with the layout 20060102-15:04:05.000000
(utils.go utcTimestampMicrosFmt): the shape check of the fixed-width
format; the external time package's calendar range validation is elided
(no claim depends on it). -/
def goParseTimeMicros (s : String) : Except GoError GoTime :=
  let cs := s.toList
  if basicTimeShape (cs.take 17) && fracShape (cs.drop 17) 6 then Except.ok ⟨s⟩
  else Except.error (GoError.parseTimeInvalid s)

/-- Embeds the engine-side parse of a UTCTimestamp field (quickfix
TransactTimeField): the fixed prefix with no fraction or a 3- or 6-digit
fraction. -/
def goParseUTCTimestamp (s : String) : Except GoError GoTime :=
  let cs := s.toList
  if basicTimeShape (cs.take 17) &&
      ((cs.drop 17).isEmpty || fracShape (cs.drop 17) 3 || fracShape (cs.drop 17) 6) then
    Except.ok ⟨s⟩
  else Except.error (GoError.parseTimeInvalid s)

/-- Domain order-status strings (const.go type OrderStatus). -/
def OrderStatusRejected : String := "REJECTED"

def OrderStatusFilled : String := "FILLED"

/-- Embeds the mappedOrderStatus Go map (const.go) over the quickfixgo
wire codes of OrdStatus; a missing key yields the Go zero value, the
empty string. -/
def mappedOrderStatus (v : String) : String :=
  if v == "0" then "NEW"
  else if v == "1" then "PARTIALLY_FILLED"
  else if v == "2" then "FILLED"
  else if v == "4" then "CANCELED"
  else if v == "6" then "PENDING_CANCEL"
  else if v == "8" then "REJECTED"
  else if v == "A" then "PENDING_NEW"
  else if v == "C" then "EXPIRED"
  else ""

/-- Embeds the mappedTimeInForce Go map (const.go). -/
def mappedTimeInForce (v : String) : String :=
  if v == "1" then "GOOD_TILL_CANCEL"
  else if v == "3" then "IMMEDIATE_OR_CANCEL"
  else if v == "4" then "FILL_OR_KILL"
  else ""

/-- Embeds the mappedOrderType Go map (const.go). -/
def mappedOrderType (v : String) : String :=
  if v == "1" then "MARKET"
  else if v == "2" then "LIMIT"
  else if v == "3" then "STOP"
  else if v == "4" then "STOP_LIMIT"
  else ""

/-- Embeds the mappedSideType Go map (const.go). -/
def mappedSideType (v : String) : String :=
  if v == "1" then "BUY"
  else if v == "2" then "SELL"
  else ""

/-- Embeds the Order domain record (utils.go); the Go field Type is named
orderType here because Type is reserved in Lean. -/
structure Order where
  symbol : String
  orderID : Int
  clientOrderID : String
  price : GoDecimal
  orderQty : GoDecimal
  cumQty : GoDecimal
  cumQuoteQty : GoDecimal
  status : String
  timeInForce : String
  orderType : String
  side : String
  icebergQuantity : GoDecimal
  transactTime : GoTime
  orderCreationTime : GoTime
  workingTime : GoTime
  deriving DecidableEq, Repr

/-- Embeds getText (utils.go): optional field, absent yields the empty
string; the string read itself cannot fail. -/
def getText (m : Msg) : Except GoError String :=
  match fieldGet m.body tagText with
  | none => Except.ok ""
  | some v => Except.ok v

/-- Embeds getSymbol (utils.go): required read, absent errors. -/
def getSymbol (m : Msg) : Except GoError String :=
  match fieldGet m.body tagSymbol with
  | none => Except.error (GoError.fieldNotFound tagSymbol)
  | some v => Except.ok v

/-- Embeds getOrderID (utils.go lines 286-295): when the tag is absent the
field keeps its zero value and strconv.ParseInt runs on the empty string
(which errors); when present, ParseInt runs on the value. -/
def getOrderID (m : Msg) : Except GoError Int :=
  match fieldGet m.body tagOrderID with
  | none => goParseInt ""
  | some v => goParseInt v

/-- Embeds getClientOrderID (utils.go): optional, absent yields "". -/
def getClientOrderID (m : Msg) : Except GoError String :=
  match fieldGet m.body tagClOrdID with
  | none => Except.ok ""
  | some v => Except.ok v

/-- Embeds getOrderStatus (utils.go): required read, then the status map
(missing key yields ""). -/
def getOrderStatus (m : Msg) : Except GoError String :=
  match fieldGet m.body tagOrdStatus with
  | none => Except.error (GoError.fieldNotFound tagOrdStatus)
  | some v => Except.ok (mappedOrderStatus v)

/-- Embeds getOrdType (utils.go): required read, then the type map. -/
def getOrdType (m : Msg) : Except GoError String :=
  match fieldGet m.body tagOrdType with
  | none => Except.error (GoError.fieldNotFound tagOrdType)
  | some v => Except.ok (mappedOrderType v)

/-- Embeds getSide (utils.go): required read, then the side map. -/
def getSide (m : Msg) : Except GoError String :=
  match fieldGet m.body tagSide with
  | none => Except.error (GoError.fieldNotFound tagSide)
  | some v => Except.ok (mappedSideType v)

/-- Embeds getTimeInForce (utils.go): optional, absent yields "". -/
def getTimeInForce (m : Msg) : Except GoError String :=
  match fieldGet m.body tagTimeInForce with
  | none => Except.ok ""
  | some v => Except.ok (mappedTimeInForce v)

/-- Embeds getPrice (utils.go): optional decimal, absent yields 0. -/
def getPrice (m : Msg) : Except GoError GoDecimal :=
  match fieldGet m.body tagPrice with
  | none => Except.ok ⟨0, 0⟩
  | some v => goParseDecimal v

/-- Embeds getOrderQty (utils.go): optional decimal, absent yields 0. -/
def getOrderQty (m : Msg) : Except GoError GoDecimal :=
  match fieldGet m.body tagOrderQty with
  | none => Except.ok ⟨0, 0⟩
  | some v => goParseDecimal v

/-- Embeds getCumQty (utils.go): optional decimal, absent yields 0. -/
def getCumQty (m : Msg) : Except GoError GoDecimal :=
  match fieldGet m.body tagCumQty with
  | none => Except.ok ⟨0, 0⟩
  | some v => goParseDecimal v

/-- Embeds getCumQuoteQty (utils.go): optional GetString then
strconv.ParseFloat, absent yields 0. -/
def getCumQuoteQty (m : Msg) : Except GoError GoDecimal :=
  match fieldGet m.body tagCumQuoteQty with
  | none => Except.ok ⟨0, 0⟩
  | some v => goParseDecimal v

/-- Embeds getMaxFloor (utils.go): optional decimal, absent yields 0. -/
def getMaxFloor (m : Msg) : Except GoError GoDecimal :=
  match fieldGet m.body tagMaxFloor with
  | none => Except.ok ⟨0, 0⟩
  | some v => goParseDecimal v

/-- Embeds getTransactTime (utils.go): optional engine-parsed timestamp,
absent yields the zero time. -/
def getTransactTime (m : Msg) : Except GoError GoTime :=
  match fieldGet m.body tagTransactTime with
  | none => Except.ok ⟨""⟩
  | some v => goParseUTCTimestamp v

/-- Embeds getOrderCreationTime (utils.go): optional GetString then
time.Parse with the micros layout, absent yields the zero time. -/
def getOrderCreationTime (m : Msg) : Except GoError GoTime :=
  match fieldGet m.body tagOrderCreationTime with
  | none => Except.ok ⟨""⟩
  | some v => goParseTimeMicros v

/-- Embeds getWorkingTime (utils.go): optional GetString then time.Parse
with the micros layout, absent yields the zero time. -/
def getWorkingTime (m : Msg) : Except GoError GoTime :=
  match fieldGet m.body tagWorkingTime with
  | none => Except.ok ⟨""⟩
  | some v => goParseTimeMicros v

/-- Embeds decodeExecutionReport (utils.go lines 163-266): the exact
early-return chain of the Go function; the Text field is consulted only
inside the status == REJECTED branch, and a non-empty reason there is
returned as errors.New(reason). -/
def decodeExecutionReport (m : Msg) : Except GoError Order :=
  match getOrderStatus m with
  | Except.error e => Except.error e
  | Except.ok status =>
    let afterReject : Except GoError Unit :=
      if status == OrderStatusRejected then
        match getText m with
        | Except.error e => Except.error e
        | Except.ok reason =>
          if reason != "" then Except.error (GoError.reasonText reason)
          else Except.ok ()
      else Except.ok ()
    match afterReject with
    | Except.error e => Except.error e
    | Except.ok _ =>
      match getSymbol m with
      | Except.error e => Except.error e
      | Except.ok symbol =>
        match getOrderID m with
        | Except.error e => Except.error e
        | Except.ok orderID =>
          match getClientOrderID m with
          | Except.error e => Except.error e
          | Except.ok clientOrderID =>
            match getPrice m with
            | Except.error e => Except.error e
            | Except.ok price =>
              match getOrderQty m with
              | Except.error e => Except.error e
              | Except.ok orderQty =>
                match getCumQty m with
                | Except.error e => Except.error e
                | Except.ok cumQty =>
                  match getCumQuoteQty m with
                  | Except.error e => Except.error e
                  | Except.ok cumQuoteQty =>
                    match getTimeInForce m with
                    | Except.error e => Except.error e
                    | Except.ok timeInForce =>
                      match getOrdType m with
                      | Except.error e => Except.error e
                      | Except.ok orderType =>
                        match getSide m with
                        | Except.error e => Except.error e
                        | Except.ok side =>
                          match getMaxFloor m with
                          | Except.error e => Except.error e
                          | Except.ok maxFloor =>
                            match getTransactTime m with
                            | Except.error e => Except.error e
                            | Except.ok transactTime =>
                              match getOrderCreationTime m with
                              | Except.error e => Except.error e
                              | Except.ok orderCreationTime =>
                                match getWorkingTime m with
                                | Except.error e => Except.error e
                                | Except.ok workingTime =>
                                  Except.ok
                                    { symbol := symbol, orderID := orderID,
                                      clientOrderID := clientOrderID, price := price,
                                      orderQty := orderQty, cumQty := cumQty,
                                      cumQuoteQty := cumQuoteQty, status := status,
                                      timeInForce := timeInForce, orderType := orderType,
                                      side := side, icebergQuantity := maxFloor,
                                      transactTime := transactTime,
                                      orderCreationTime := orderCreationTime,
                                      workingTime := workingTime }

/-- Builds a synthetic execution-report message carrying only the required
fields (status, symbol, order id, order type, side), every optional field
absent. -/
def mkExecReport (sym st ot sd oid : String) : Msg :=
  { header := [(tagMsgType, msgTypeExecutionReport)],
    body := [(tagOrdStatus, st), (tagSymbol, sym), (tagOrderID, oid),
      (tagOrdType, ot), (tagSide, sd)],
    reparses := true }

/-- Embeds the global quickfix settings consulted by NewClient
(client.go lines 80-95): each named setting is present or absent;
globalSettings.Setting errors when the name is absent. -/
structure GlobalSettings where
  beginString : Option String
  targetCompID : Option String
  senderCompID : Option String
  deriving DecidableEq, Repr

/-- Embeds globalSettings.Setting(name). -/
def getSetting (o : Option String) (name : String) : Except GoError String :=
  match o with
  | none => Except.error (GoError.settingMissing name)
  | some v => Except.ok v

/-- Embeds the result of x509.ParsePKCS8PrivateKey on a PEM block payload
at the boundary: an Ed25519 key (its bytes), a key of another type, or a
malformed payload. -/
inductive Pkcs8Content where
  | ed25519Key (k : List Nat)
  | otherKey
  | malformed
  deriving DecidableEq, Repr

/-- Embeds the pem.Decode view of the key file: a first block with its
type string and payload, or no block at all. -/
structure PemFile where
  block : Option (String × Pkcs8Content)
  deriving DecidableEq, Repr

/-- Embeds blockTypePrivateKey (utils.go). -/
def blockTypePrivateKey : String := "PRIVATE KEY"

/-- Embeds ParseEd25519PrivateKey (utils.go lines 36-53): no block or a
block of the wrong type gives ErrNilPrivateKeyValue; a payload that fails
PKCS8 parsing propagates that error; a non-Ed25519 key gives
ErrInvalidEd25519Key. -/
def ParseEd25519PrivateKey (data : PemFile) : Except GoError (List Nat) :=
  match data.block with
  | none => Except.error GoError.nilPrivateKeyValue
  | some (t, content) =>
    if t != blockTypePrivateKey then Except.error GoError.nilPrivateKeyValue
    else
      match content with
      | Pkcs8Content.malformed => Except.error GoError.pkcs8Invalid
      | Pkcs8Content.otherKey => Except.error GoError.invalidEd25519Key
      | Pkcs8Content.ed25519Key k => Except.ok k

/-- Embeds GetEd25519PrivateKeyFromFile (utils.go lines 55-68): the file
open/read outcome is the boundary parameter; then the PEM parse. -/
def GetEd25519PrivateKeyFromFile (file : Except GoError PemFile) :
    Except GoError (List Nat) :=
  match file with
  | Except.error e => Except.error e
  | Except.ok data => ParseEd25519PrivateKey data

/-- Embeds the environment NewClient runs against: the settings object
(nil or present), the key file read outcome, the engine's initiator
creation and start outcomes, and the polling observations of Start. -/
structure NewClientEnv where
  settings : Option GlobalSettings
  keyFile : Except GoError PemFile
  initiatorCreate : Except GoError Unit
  engineStart : Except GoError Unit
  obs : List StartObs
  deriving Repr

/-- Embeds NewClient (client.go lines 74-139) as the pair of returned
values, mirroring every return statement: (nil, err) on each failure,
(client, nil) on success. The constructed client starts with an empty
pending map and the three identity settings; its connected field is true
because Start only returned nil after reading the flag true. The outer
Option is none when the polling loop had not yet terminated within the
supplied observations (in the program the 30-second timer bounds this). -/
def NewClient (env : NewClientEnv) : Option (Option ClientState × Option GoError) :=
  match env.settings with
  | none => some (none, some GoError.emptySettings)
  | some gs =>
    match getSetting gs.beginString "BeginString" with
    | Except.error e => some (none, some e)
    | Except.ok beginString =>
      match getSetting gs.targetCompID "TargetCompID" with
      | Except.error e => some (none, some e)
      | Except.ok targetCompID =>
        match getSetting gs.senderCompID "SenderCompID" with
        | Except.error e => some (none, some e)
        | Except.ok senderCompID =>
          match GetEd25519PrivateKeyFromFile env.keyFile with
          | Except.error e => some (none, some e)
          | Except.ok _ =>
            match env.initiatorCreate with
            | Except.error e => some (none, some e)
            | Except.ok _ =>
              match clientStart env.engineStart env.obs with
              | none => none
              | some (Except.error e) => some (none, some e)
              | some (Except.ok _) =>
                let client : ClientState :=
                  { connected := true, pending := [], beginString := beginString,
                    targetCompID := targetCompID, senderCompID := senderCompID }
                some (some client, none)

/-- Embeds enum.MsgType_LOGON. -/
def msgTypeLogon : String := "A"

/-- Standard base64 alphabet (encoding/base64 StdEncoding). -/
def base64Alphabet : List Char :=
  "ABCDEFGHIJKLMNOPQRSTUVWXYZabcdefghijklmnopqrstuvwxyz0123456789+/".toList

/-- Character of a 6-bit group. -/
def base64Char (n : Nat) : Char :=
  base64Alphabet.getD n '='

/-- Embeds base64.StdEncoding.EncodeToString over byte lists. -/
def base64Encode : List Nat → List Char
  | [] => []
  | [b1] => [base64Char (b1 / 4), base64Char (b1 % 4 * 16), '=', '=']
  | [b1, b2] =>
    [base64Char (b1 / 4), base64Char (b1 % 4 * 16 + b2 / 16),
      base64Char (b2 % 16 * 4), '=']
  | b1 :: b2 :: b3 :: rest =>
    base64Char (b1 / 4) :: base64Char (b1 % 4 * 16 + b2 / 16) ::
      base64Char (b2 % 16 * 4 + b3 / 64) :: base64Char (b3 % 64) :: base64Encode rest

/-- Embeds GetLogonRawData (utils.go lines 70-80): joins with the single
0x01 separator the five fields logon message type, senderCompID,
targetCompID, the literal sequence number 1, and sendingTime; signs the
payload bytes; base64-encodes the signature. The Ed25519 primitive
(ed25519.Sign) is external to the sources and passed as the boundary
parameter sign. -/
def GetLogonRawData (sign : List Nat → List Nat → List Nat) (privateKey : List Nat)
    (senderCompID targetCompID sendingTime : String) : String :=
  let payload := String.intercalate "\x01"
    [msgTypeLogon, senderCompID, targetCompID, "1", sendingTime]
  let data := sign privateKey (payload.toList.map Char.toNat)
  String.mk (base64Encode data)

/-- Events relevant to the Correlation Table lock discipline, read off the
straight-line code of each function: operations on the single mutex c.mu,
accesses to the pending map, accesses to the atomic connected flag,
channel signaling, and calls into the engine. -/
inductive LockEvent where
  | lock
  | unlock
  | tableRead
  | tableWrite
  | flagRead
  | flagWrite
  | chanSignal
  | engineCall
  deriving DecidableEq, Repr

/-- Checks, carrying the held state of the mutex, that every pending-map
access in a trace happens while the mutex is held. -/
def tableOpsLockedFrom : Bool → List LockEvent → Bool
  | _, [] => true
  | _, LockEvent.lock :: rest => tableOpsLockedFrom true rest
  | _, LockEvent.unlock :: rest => tableOpsLockedFrom false rest
  | held, LockEvent.tableRead :: rest => held && tableOpsLockedFrom held rest
  | held, LockEvent.tableWrite :: rest => held && tableOpsLockedFrom held rest
  | held, _ :: rest => tableOpsLockedFrom held rest

/-- Checks a trace starting with the mutex free. -/
def tableOpsLocked (es : List LockEvent) : Bool :=
  tableOpsLockedFrom false es

/-- Lists, for each pending-map access of a trace in order, whether the
mutex was held at that access. -/
def tableOpStatuses : Bool → List LockEvent → List Bool
  | _, [] => []
  | _, LockEvent.lock :: rest => tableOpStatuses true rest
  | _, LockEvent.unlock :: rest => tableOpStatuses false rest
  | held, LockEvent.tableRead :: rest => held :: tableOpStatuses held rest
  | held, LockEvent.tableWrite :: rest => held :: tableOpStatuses held rest
  | held, _ :: rest => tableOpStatuses held rest

/-- Trace of send (client.go lines 192-211), read line by line: the atomic
flag load (195); if connected, the map insertion c.pending[id] = cc (201)
with NO lock held, then quickfix.Send (203); on transmit failure, the
cleanup mu.Lock, delete(c.pending, id), mu.Unlock (204-206). -/
def sendTrace (connected transmitOk : Bool) : List LockEvent :=
  if !connected then [LockEvent.flagRead]
  else if transmitOk then
    [LockEvent.flagRead, LockEvent.tableWrite, LockEvent.engineCall]
  else
    [LockEvent.flagRead, LockEvent.tableWrite, LockEvent.engineCall,
      LockEvent.lock, LockEvent.tableWrite, LockEvent.unlock]

/-- Trace of the table portion of FromApp (interface.go lines 82-102):
mu.Lock, the map read c.pending[id], delete(c.pending, id), mu.Unlock, and
- when a call matched - the completion signal sent after the lock is
released. -/
def fromAppTrace (matched : Bool) : List LockEvent :=
  [LockEvent.lock, LockEvent.tableRead, LockEvent.tableWrite, LockEvent.unlock] ++
    (if matched then [LockEvent.chanSignal] else [])

/-- Per-entry events of the OnLogout range loop (interface.go 31-34): a
map iteration read and a channel signal for each of the n entries, with no
lock anywhere. -/
def onLogoutIter : Nat → List LockEvent
  | 0 => []
  | n + 1 => LockEvent.tableRead :: LockEvent.chanSignal :: onLogoutIter n

/-- Trace of OnLogout (interface.go lines 22-35): the atomic flag store,
then the unlocked iteration over the pending map. -/
def onLogoutTrace (n : Nat) : List LockEvent :=
  LockEvent.flagWrite :: onLogoutIter n

/-- Helper: mapInsert makes the inserted entry visible under its key. -/
theorem mapGet_mapInsert_self (t : List (String × CallRec)) (id : String) (cc : CallRec) :
    mapGet (mapInsert t id cc) id = some cc := by
  induction t with
  | nil => simp [mapGet, mapInsert]
  | cons p rest ih =>
    by_cases h : p.1 = id
    · simp [mapInsert, mapGet, h]
    · simp [mapInsert, mapGet, h, ih]

/-- C3. Rejected-while-disconnected: with the connected flag false, the
send step fails with the Closed error and leaves the table untouched
(whatever the transmit outcome would have been); with the flag true, a
fresh PendingCall keyed by id is inserted by the registration step and
returned, and a successful transmit returns exactly that record. -/
theorem register_closed_iff_disconnected (c : ClientState) (id : String) (m : Msg)
    (now : String) (transmit : Except GoError Unit) :
    (c.connected = false →
      send c id m now transmit = (c, Except.error GoError.closed) ∧
      (send c id m now transmit).1.pending = c.pending) ∧
    (c.connected = true →
      ∃ cc, (register c id m now).2 = Except.ok cc ∧
        mapGet (register c id m now).1.pending id = some cc ∧
        (transmit = Except.ok () → send c id m now transmit = ((register c id m now).1, Except.ok cc))) := by
  constructor
  · intro h
    have : send c id m now transmit = (c, Except.error GoError.closed) := by
      simp [send, register, h]
    exact ⟨this, by rw [this]⟩
  · intro h
    refine ⟨newCall (addCommonHeaders c now m), ?_, ?_, ?_⟩
    · simp [register, h]
    · simp [register, h, mapGet_mapInsert_self]
    · intro ht
      simp [send, register, h, ht]

/-- Witness for C3: concrete disconnected and connected states. -/
theorem register_closed_iff_disconnected_witness :
    (send
        { connected := false, pending := [], beginString := "FIX.4.4",
          targetCompID := "SPOT", senderCompID := "EXAMPLE" }
        "id1" { header := [], body := [], reparses := true } "t0" (Except.ok ())
      = ({ connected := false, pending := [], beginString := "FIX.4.4",
            targetCompID := "SPOT", senderCompID := "EXAMPLE" },
          Except.error GoError.closed)) ∧
    (∃ cc,
      (register
          { connected := true, pending := [], beginString := "FIX.4.4",
            targetCompID := "SPOT", senderCompID := "EXAMPLE" }
          "id1" { header := [], body := [], reparses := true } "t0").2 = Except.ok cc) := by
  constructor
  · exact ((register_closed_iff_disconnected
      { connected := false, pending := [], beginString := "FIX.4.4",
        targetCompID := "SPOT", senderCompID := "EXAMPLE" }
      "id1" { header := [], body := [], reparses := true } "t0" (Except.ok ())).1 rfl).1
  · obtain ⟨cc, h1, -, -⟩ := (register_closed_iff_disconnected
      { connected := true, pending := [], beginString := "FIX.4.4",
        targetCompID := "SPOT", senderCompID := "EXAMPLE" }
      "id1" { header := [], body := [], reparses := true } "t0" (Except.ok ())).2 rfl
    exact ⟨cc, h1⟩

/-- C4 counterexample: with the engine started, an observation in which the
caller's context is canceled (and the 30-second timer has not fired, and
the flag is still false) makes Start return the logon timed out error, not
the cancellation error: the two failure causes do not yield distinct
errors. -/
theorem clientStart_cancel_counterexample :
    clientStart (Except.ok ())
        [{ timedOut := false, cancelled := true, connected := false }]
      = some (Except.error GoError.logonTimedOut) ∧
    GoError.logonTimedOut ≠ GoError.ctxCanceled := by
  constructor
  · rfl
  · intro h
    cases h

/-- C4 amended: Start polls the connected flag until it is true, the
30-second handshake timeout fires, or the caller's context is canceled,
whichever first; but the timeout and the cancellation both produce the
same logon timed out error - the cancellation error is not propagated as
a distinct error. -/
theorem clientStart_failure_always_logonTimedOut :
    (∀ obs e, clientStart (Except.ok ()) obs = some (Except.error e) →
      e = GoError.logonTimedOut) ∧
    (∀ o rest, o.cancelled = true →
      clientStart (Except.ok ()) (o :: rest) = some (Except.error GoError.logonTimedOut)) ∧
    (∀ o rest, o.timedOut = false → o.cancelled = false → o.connected = true →
      clientStart (Except.ok ()) (o :: rest) = some (Except.ok ())) := by
  refine ⟨?_, ?_, ?_⟩
  · intro obs
    induction obs with
    | nil => intro e h; simp [clientStart, startLoop] at h
    | cons o rest ih =>
      intro e h
      simp only [clientStart, startLoop] at h
      by_cases hd : (o.timedOut || o.cancelled) = true
      · rw [if_pos hd] at h
        injection h with h
        injection h with h
        exact h.symm
      · rw [if_neg hd] at h
        by_cases hc : o.connected = true
        · rw [if_pos hc] at h
          injection h with h
          cases h
        · rw [if_neg hc] at h
          exact ih e h
  · intro o rest h
    simp [clientStart, startLoop, h]
  · intro o rest h1 h2 h3
    simp [clientStart, startLoop, h1, h2, h3]

/-- Witness for C4 amended: concrete cancellation and connection
observations. -/
theorem clientStart_failure_always_logonTimedOut_witness :
    clientStart (Except.ok ())
        [{ timedOut := false, cancelled := true, connected := false }]
      = some (Except.error GoError.logonTimedOut) ∧
    clientStart (Except.ok ())
        [{ timedOut := false, cancelled := false, connected := true }]
      = some (Except.ok ()) := by
  constructor
  · exact clientStart_failure_always_logonTimedOut.2.1
      { timedOut := false, cancelled := true, connected := false } [] rfl
  · exact clientStart_failure_always_logonTimedOut.2.2
      { timedOut := false, cancelled := false, connected := true } [] rfl rfl rfl

/-- Helper: deleting a key removes it from the map. -/
theorem mapGet_mapDelete_self (t : List (String × CallRec)) (id : String) :
    mapGet (mapDelete t id) id = none := by
  induction t with
  | nil => rfl
  | cons p rest ih =>
    by_cases h : p.1 = id
    · simpa [mapDelete, h] using ih
    · simpa [mapDelete, mapGet, h] using ih

/-- Helper: deleting one key leaves every other key unchanged. -/
theorem mapGet_mapDelete_ne (t : List (String × CallRec)) (id id' : String)
    (h : id' ≠ id) : mapGet (mapDelete t id) id' = mapGet t id' := by
  induction t with
  | nil => rfl
  | cons p rest ih =>
    by_cases hp : p.1 = id
    · have hp2 : ¬ p.1 = id' := by rw [hp]; exact fun he => h he.symm
      simp [mapDelete, mapGet, hp, hp2, ih, h, Ne.symm h]
    · by_cases hq : p.1 = id'
      · simp [mapDelete, mapGet, hp, hq, h, Ne.symm h]
      · simp [mapDelete, mapGet, hp, hq, ih, h, Ne.symm h]

/-- Helper: an absent key stays absent across a delete. -/
theorem mapGet_mapDelete_none (t : List (String × CallRec)) (i id : String)
    (h : mapGet t id = none) : mapGet (mapDelete t i) id = none := by
  by_cases hii : id = i
  · subst hii; exact mapGet_mapDelete_self t id
  · rw [mapGet_mapDelete_ne t i id hii]; exact h

/-- Helper: an early return from the extraction prefix is a drop or a
reject, never a delivery, an exit, or a panic. -/
theorem extractReqID_inl_cases (m : Msg) (o : FromAppOutcome)
    (h : extractReqID m = Sum.inl o) :
    o = FromAppOutcome.drop ∨ ∃ t, o = FromAppOutcome.reject (GoError.fieldNotFound t) := by
  cases hmt : m.getMsgType with
  | none =>
    have he : extractReqID m = Sum.inl (FromAppOutcome.reject (GoError.fieldNotFound tagMsgType)) := by
      simp [extractReqID, hmt]
    have h2 := he.symm.trans h
    simp only [Sum.inl.injEq] at h2
    exact Or.inr ⟨tagMsgType, h2.symm⟩
  | some mt =>
    cases hrt : getReqIDTagFromMsgType mt with
    | error e =>
      have he : extractReqID m = Sum.inl FromAppOutcome.drop := by
        simp [extractReqID, hmt, hrt]
      have h2 := he.symm.trans h
      simp only [Sum.inl.injEq] at h2
      exact Or.inl h2.symm
    | ok t =>
      cases hfg : fieldGet m.body t with
      | none =>
        have he : extractReqID m = Sum.inl (FromAppOutcome.reject (GoError.fieldNotFound t)) := by
          simp [extractReqID, hmt, hrt, hfg]
        have h2 := he.symm.trans h
        simp only [Sum.inl.injEq] at h2
        exact Or.inr ⟨t, h2.symm⟩
      | some i =>
        have he : extractReqID m = Sum.inr i := by
          simp [extractReqID, hmt, hrt, hfg]
        rw [he] at h
        simp at h

/-- Helper: FromApp on an early extraction return leaves the state alone. -/
theorem fromApp_eq_of_inl (c : ClientState) (m : Msg) (o : FromAppOutcome)
    (h : extractReqID m = Sum.inl o) : fromApp c m = (c, o) := by
  simp [fromApp, h]

/-- Helper: FromApp with an extracted id and no matching call. -/
theorem fromApp_eq_unmatched (c : ClientState) (m : Msg) (id : String)
    (h : extractReqID m = Sum.inr id) (hc : mapGet c.pending id = none) :
    fromApp c m = ({ c with pending := mapDelete c.pending id }, FromAppOutcome.unmatched) := by
  simp [fromApp, h, hc]

/-- Helper: FromApp with a matched call and a failing message copy. -/
theorem fromApp_eq_fatalExit (c : ClientState) (m : Msg) (id : String) (cc : CallRec)
    (h : extractReqID m = Sum.inr id) (hc : mapGet c.pending id = some cc)
    (hcp : copyMessage m = none) :
    fromApp c m = ({ c with pending := mapDelete c.pending id }, FromAppOutcome.fatalExit) := by
  simp [fromApp, h, hc, hcp]

/-- Helper: FromApp with a matched call whose channel is already closed. -/
theorem fromApp_eq_panicked (c : ClientState) (m : Msg) (id : String) (cc : CallRec)
    (resp : Msg) (h : extractReqID m = Sum.inr id) (hc : mapGet c.pending id = some cc)
    (hcp : copyMessage m = some resp) (hd : cc.doneClosed = true) :
    fromApp c m = ({ c with pending := mapDelete c.pending id }, FromAppOutcome.panicked) := by
  simp [fromApp, h, hc, hcp, hd]

/-- Helper: FromApp with a matched open call and a successful copy. -/
theorem fromApp_eq_delivered (c : ClientState) (m : Msg) (id : String) (cc : CallRec)
    (resp : Msg) (h : extractReqID m = Sum.inr id) (hc : mapGet c.pending id = some cc)
    (hcp : copyMessage m = some resp) (hd : cc.doneClosed = false) :
    fromApp c m =
      ({ c with pending := mapDelete c.pending id }, FromAppOutcome.delivered id resp) := by
  simp [fromApp, h, hc, hcp, hd]

/-- Helper: whatever FromApp does, the resulting pending map is either the
original map or the original with the extracted id deleted. -/
theorem fromApp_pending_cases (c : ClientState) (m : Msg) :
    (fromApp c m).1.pending = c.pending ∨
    (∃ id, extractReqID m = Sum.inr id ∧
      (fromApp c m).1.pending = mapDelete c.pending id) := by
  cases he : extractReqID m with
  | inl o =>
    left
    rw [fromApp_eq_of_inl c m o he]
  | inr id =>
    right
    refine ⟨id, rfl, ?_⟩
    cases hc : mapGet c.pending id with
    | none => rw [fromApp_eq_unmatched c m id he hc]
    | some cc =>
      cases hcp : copyMessage m with
      | none => rw [fromApp_eq_fatalExit c m id cc he hc hcp]
      | some resp =>
        cases hd : cc.doneClosed with
        | true => rw [fromApp_eq_panicked c m id cc resp he hc hcp hd]
        | false => rw [fromApp_eq_delivered c m id cc resp he hc hcp hd]

/-- Helper: if no call is pending at id, one FromApp step delivers nothing
to id and leaves id absent. -/
theorem fromApp_no_pending (c : ClientState) (m : Msg) (id : String)
    (h : mapGet c.pending id = none) :
    isDeliveryTo id (fromApp c m).2 = false ∧
    mapGet (fromApp c m).1.pending id = none := by
  have hpend : mapGet (fromApp c m).1.pending id = none := by
    rcases fromApp_pending_cases c m with hp | ⟨i, -, hp⟩
    · rw [hp]; exact h
    · rw [hp]; exact mapGet_mapDelete_none c.pending i id h
  refine ⟨?_, hpend⟩
  cases he : extractReqID m with
  | inl o =>
    rw [fromApp_eq_of_inl c m o he]
    rcases extractReqID_inl_cases m o he with ho | ⟨t, ho⟩ <;> subst ho <;> rfl
  | inr i =>
    by_cases hi : i = id
    · subst hi
      rw [fromApp_eq_unmatched c m i he h]
      rfl
    · cases hc : mapGet c.pending i with
      | none => rw [fromApp_eq_unmatched c m i he hc]; rfl
      | some cc =>
        cases hcp : copyMessage m with
        | none => rw [fromApp_eq_fatalExit c m i cc he hc hcp]; rfl
        | some resp =>
          cases hd : cc.doneClosed with
          | true => rw [fromApp_eq_panicked c m i cc resp he hc hcp hd]; rfl
          | false =>
            rw [fromApp_eq_delivered c m i cc resp he hc hcp hd]
            simp only [isDeliveryTo, beq_iff_eq]
            exact decide_eq_false hi

/-- Helper: when no done channel is already closed, the logout loop
signals every entry in place and no panic occurs. -/
theorem drainLoop_all_open (t : List (String × CallRec))
    (h : ∀ p ∈ t, p.2.doneClosed = false) :
    drainLoop t = (t.map (fun p => (p.1, signalClosed p.2)), false) := by
  induction t with
  | nil => rfl
  | cons p rest ih =>
    have hp : p.2.doneClosed = false := h p (List.mem_cons_self p rest)
    have hr : ∀ q ∈ rest, q.2.doneClosed = false := fun q hq => h q (List.mem_cons_of_mem p hq)
    cases p with
    | mk pid pcc =>
      simp only at hp
      simp [drainLoop, hp, ih hr]

/-- C2 counterexample: a logout over a table holding one pending call
leaves the table non-empty: the entry is signaled but not removed, so the
Correlation Table is not drained to empty as the claim states. -/
theorem onLogout_keeps_entries_counterexample :
    (onLogout
        { connected := true,
          pending := [("r1",
            { request := { header := [], body := [], reparses := true },
              response := none, doneMsgs := [], doneClosed := false })],
          beginString := "FIX.4.4", targetCompID := "SPOT",
          senderCompID := "EXAMPLE" }).1.pending ≠ [] := by
  decide

/-- C2 amended: on session termination the connected flag is cleared and
every pending call whose channel is still open (all of them, on a first
termination) is signaled with the connection-closed terminal error and its
channel closed, with no panic; but the entries are NOT removed from the
Correlation Table: the table keeps exactly its entries, pointwise
signaled, rather than being left empty. -/
theorem onLogout_signals_all_but_removes_nothing (c : ClientState)
    (h : ∀ p ∈ c.pending, p.2.doneClosed = false) :
    (onLogout c).1.connected = false ∧
    (onLogout c).2 = false ∧
    (onLogout c).1.pending = c.pending.map (fun p => (p.1, signalClosed p.2)) ∧
    (onLogout c).1.pending.length = c.pending.length ∧
    (∀ p ∈ c.pending, (p.1, signalClosed p.2) ∈ (onLogout c).1.pending) := by
  have hd := drainLoop_all_open c.pending h
  refine ⟨rfl, ?_, ?_, ?_, ?_⟩
  · simp [onLogout, hd]
  · simp [onLogout, hd]
  · simp [onLogout, hd]
  · intro p hp
    simp only [onLogout, hd]
    exact List.mem_map_of_mem (fun q => (q.1, signalClosed q.2)) hp

/-- Witness for C2 amended: a concrete one-entry table. -/
theorem onLogout_signals_all_but_removes_nothing_witness :
    (onLogout
        { connected := true,
          pending := [("r1",
            { request := { header := [], body := [], reparses := true },
              response := none, doneMsgs := [], doneClosed := false })],
          beginString := "FIX.4.4", targetCompID := "SPOT",
          senderCompID := "EXAMPLE" }).1.connected = false ∧
    (onLogout
        { connected := true,
          pending := [("r1",
            { request := { header := [], body := [], reparses := true },
              response := none, doneMsgs := [], doneClosed := false })],
          beginString := "FIX.4.4", targetCompID := "SPOT",
          senderCompID := "EXAMPLE" }).1.pending.length = 1 := by
  refine ⟨(onLogout_signals_all_but_removes_nothing _ ?_).1, ?_⟩
  · intro p hp
    simp only [List.mem_singleton] at hp
    subst hp
    rfl
  · have := (onLogout_signals_all_but_removes_nothing
      { connected := true,
        pending := [("r1",
          { request := { header := [], body := [], reparses := true },
            response := none, doneMsgs := [], doneClosed := false })],
        beginString := "FIX.4.4", targetCompID := "SPOT",
        senderCompID := "EXAMPLE" }
      (by intro p hp; simp only [List.mem_singleton] at hp; subst hp; rfl)).2.2.2.1
    simpa using this

/-- Helper: a delivery to id by one FromApp step removes id from the table. -/
theorem fromApp_delivery_removes (c : ClientState) (m : Msg) (id : String)
    (h : isDeliveryTo id (fromApp c m).2 = true) :
    mapGet (fromApp c m).1.pending id = none := by
  cases he : extractReqID m with
  | inl o =>
    rw [fromApp_eq_of_inl c m o he] at h
    rcases extractReqID_inl_cases m o he with ho | ⟨t, ho⟩ <;> subst ho <;> simp [isDeliveryTo] at h
  | inr i =>
    cases hc : mapGet c.pending i with
    | none =>
      rw [fromApp_eq_unmatched c m i he hc] at h
      simp [isDeliveryTo] at h
    | some cc =>
      cases hcp : copyMessage m with
      | none =>
        rw [fromApp_eq_fatalExit c m i cc he hc hcp] at h
        simp [isDeliveryTo] at h
      | some resp =>
        cases hd : cc.doneClosed with
        | true =>
          rw [fromApp_eq_panicked c m i cc resp he hc hcp hd] at h
          simp [isDeliveryTo] at h
        | false =>
          rw [fromApp_eq_delivered c m i cc resp he hc hcp hd] at h ⊢
          simp only [isDeliveryTo, beq_iff_eq] at h
          have hi : i = id := by simpa using h
          subst hi
          exact mapGet_mapDelete_self c.pending i

/-- Helper: with id absent from the table, a whole message sequence
delivers nothing to id. -/
theorem processAll_no_pending (ms : List Msg) :
    ∀ (c : ClientState) (id : String), mapGet c.pending id = none →
      deliveries id (processAll c ms).2 = 0 := by
  induction ms with
  | nil =>
    intro c id h
    rfl
  | cons m rest ih =>
    intro c id h
    obtain ⟨h1, h2⟩ := fromApp_no_pending c m id h
    have hr := ih (fromApp c m).1 id h2
    simp only [deliveries] at hr
    simp [processAll, deliveries, List.countP_cons, h1, hr]

/-- C1. At-most-one delivery: across any sequence of inbound messages, at
most one is delivered to the caller registered at id; a delivery removes
the table entry in the same step; and a message whose identifier matches
no pending call is discarded without signaling anyone. -/
theorem at_most_one_delivery :
    (∀ (c : ClientState) (ms : List Msg) (id : String),
      deliveries id (processAll c ms).2 ≤ 1) ∧
    (∀ (c : ClientState) (m : Msg) (id : String),
      isDeliveryTo id (fromApp c m).2 = true →
        mapGet (fromApp c m).1.pending id = none) ∧
    (∀ (c : ClientState) (m : Msg) (id : String),
      mapGet c.pending id = none → isDeliveryTo id (fromApp c m).2 = false) := by
  refine ⟨?_, fromApp_delivery_removes, fun c m id h => (fromApp_no_pending c m id h).1⟩
  intro c ms
  induction ms generalizing c with
  | nil =>
    intro id
    simp [processAll, deliveries]
  | cons m rest ih =>
    intro id
    cases hb : isDeliveryTo id (fromApp c m).2 with
    | false =>
      have hr := ih (fromApp c m).1 id
      simp only [deliveries] at hr
      simp [processAll, deliveries, List.countP_cons, hb, hr]
    | true =>
      have h2 := fromApp_delivery_removes c m id hb
      have h0 := processAll_no_pending rest (fromApp c m).1 id h2
      simp only [deliveries] at h0
      simp [processAll, deliveries, List.countP_cons, hb, h0]

/-- Witness for C1: a concrete table with one registered call and the same
correlated message arriving twice; exactly the hypothesized situations,
evaluated concretely. -/
theorem at_most_one_delivery_witness :
    deliveries "r1"
        (processAll
          { connected := true,
            pending := [("r1",
              { request := { header := [], body := [], reparses := true },
                response := none, doneMsgs := [], doneClosed := false })],
            beginString := "FIX.4.4", targetCompID := "SPOT",
            senderCompID := "EXAMPLE" }
          [{ header := [(35, "XLR")], body := [(6136, "r1")], reparses := true },
           { header := [(35, "XLR")], body := [(6136, "r1")], reparses := true }]).2 ≤ 1 ∧
    mapGet
        (fromApp
          { connected := true,
            pending := [("r1",
              { request := { header := [], body := [], reparses := true },
                response := none, doneMsgs := [], doneClosed := false })],
            beginString := "FIX.4.4", targetCompID := "SPOT",
            senderCompID := "EXAMPLE" }
          { header := [(35, "XLR")], body := [(6136, "r1")], reparses := true }).1.pending
        "r1" = none ∧
    isDeliveryTo "r1"
        (fromApp
          { connected := true, pending := [],
            beginString := "FIX.4.4", targetCompID := "SPOT",
            senderCompID := "EXAMPLE" }
          { header := [(35, "XLR")], body := [(6136, "r1")], reparses := true }).2 = false := by
  refine ⟨at_most_one_delivery.1 _ _ _, at_most_one_delivery.2.1 _ _ _ (by decide),
    at_most_one_delivery.2.2 _ _ _ (by decide)⟩

/-- C7 counterexample: a matched inbound message whose copy fails reaches
the Fatalw branch of FromApp, which logs at fatal level and exits the
whole process - the error is not contained locally, refuting the claim
that no inbound-path error ever terminates the process. -/
theorem fromApp_copy_failure_fatal_counterexample :
    (fromApp
        { connected := true,
          pending := [("r1",
            { request := { header := [], body := [], reparses := true },
              response := none, doneMsgs := [], doneClosed := false })],
          beginString := "FIX.4.4", targetCompID := "SPOT",
          senderCompID := "EXAMPLE" }
        { header := [(35, "XLR")], body := [(6136, "r1")], reparses := false }).2
      = FromAppOutcome.fatalExit := by
  decide

/-- C7 amended: errors in the identifier-extraction prefix (unmapped
category, mapped tag absent) are contained - the state is untouched and
the outcome is a local drop or a protocol reject; and no pending call
other than the one matched by the extracted identifier is ever affected;
but a failure to copy a matched response message is logged at fatal
level, which terminates the process rather than being handled locally. -/
theorem fromApp_containment_except_copy_fatal :
    (∀ (c : ClientState) (m : Msg) (o : FromAppOutcome),
      extractReqID m = Sum.inl o →
        fromApp c m = (c, o) ∧
        (o = FromAppOutcome.drop ∨
          ∃ t, o = FromAppOutcome.reject (GoError.fieldNotFound t))) ∧
    (∀ (c : ClientState) (m : Msg) (id id' : String),
      extractReqID m = Sum.inr id → id' ≠ id →
        mapGet (fromApp c m).1.pending id' = mapGet c.pending id') ∧
    (∀ (c : ClientState) (m : Msg) (id : String) (cc : CallRec),
      extractReqID m = Sum.inr id → mapGet c.pending id = some cc →
        copyMessage m = none →
        (fromApp c m).2 = FromAppOutcome.fatalExit) := by
  refine ⟨?_, ?_, ?_⟩
  · intro c m o he
    exact ⟨fromApp_eq_of_inl c m o he, extractReqID_inl_cases m o he⟩
  · intro c m id id' he hne
    rcases fromApp_pending_cases c m with hp | ⟨i, hei, hp⟩
    · rw [hp]
    · have hii : i = id := by
        have := hei.symm.trans he
        simpa using this
      subst hii
      rw [hp]
      exact mapGet_mapDelete_ne c.pending i id' hne
  · intro c m id cc he hc hcp
    rw [fromApp_eq_fatalExit c m id cc he hc hcp]

/-- Witness for C7 amended: a concrete unmapped message, a concrete
matched message with an unrelated key, and a concrete copy failure. -/
theorem fromApp_containment_except_copy_fatal_witness :
    fromApp
        { connected := true, pending := [],
          beginString := "FIX.4.4", targetCompID := "SPOT",
          senderCompID := "EXAMPLE" }
        { header := [(35, "D")], body := [], reparses := true }
      = ({ connected := true, pending := [],
            beginString := "FIX.4.4", targetCompID := "SPOT",
            senderCompID := "EXAMPLE" }, FromAppOutcome.drop) ∧
    mapGet
        (fromApp
          { connected := true,
            pending := [("r1",
              { request := { header := [], body := [], reparses := true },
                response := none, doneMsgs := [], doneClosed := false })],
            beginString := "FIX.4.4", targetCompID := "SPOT",
            senderCompID := "EXAMPLE" }
          { header := [(35, "XLR")], body := [(6136, "r1")], reparses := true }).1.pending
        "other"
      = mapGet
          [("r1",
            { request := { header := [], body := [], reparses := true },
              response := none, doneMsgs := [], doneClosed := false })]
          "other" ∧
    (fromApp
        { connected := true,
          pending := [("r2",
            { request := { header := [], body := [], reparses := true },
              response := none, doneMsgs := [], doneClosed := false })],
          beginString := "FIX.4.4", targetCompID := "SPOT",
          senderCompID := "EXAMPLE" }
        { header := [(35, "XLR")], body := [(6136, "r2")], reparses := false }).2
      = FromAppOutcome.fatalExit := by
  refine ⟨(fromApp_containment_except_copy_fatal.1 _ _ FromAppOutcome.drop (by decide)).1,
    fromApp_containment_except_copy_fatal.2.1 _ _ "r1" "other" (by decide) (by decide),
    fromApp_containment_except_copy_fatal.2.2 _ _ "r2"
      { request := { header := [], body := [], reparses := true },
        response := none, doneMsgs := [], doneClosed := false }
      (by decide) (by decide) (by decide)⟩

/-- Helper: the logout loop never changes the number of table entries. -/
theorem drainLoop_length (t : List (String × CallRec)) :
    (drainLoop t).1.length = t.length := by
  induction t with
  | nil => rfl
  | cons p rest ih =>
    cases p with
    | mk pid pcc =>
      by_cases h : pcc.doneClosed
      · simp [drainLoop, h]
      · simp [drainLoop, h, ih]

/-- Helper: deleting a key that was fresh before its own insertion
restores the original table. -/
theorem mapDelete_mapInsert_fresh (t : List (String × CallRec)) (id : String)
    (cc : CallRec) (h : mapGet t id = none) :
    mapDelete (mapInsert t id cc) id = t := by
  induction t with
  | nil => simp [mapInsert, mapDelete]
  | cons p rest ih =>
    by_cases hp : p.1 = id
    · exfalso
      simp [mapGet, hp] at h
    · simp only [mapGet, hp] at h
      simp only [beq_iff_eq, hp, if_false] at h ⊢
      simp [mapInsert, mapDelete, hp, ih h]

/-- Helper: every table access of the unlocked logout iteration reports
the mutex free. -/
theorem onLogoutIter_statuses (n : Nat) :
    tableOpStatuses false (onLogoutIter n) = List.replicate n false := by
  induction n with
  | zero => rfl
  | succ k ih => simp [onLogoutIter, tableOpStatuses, ih, List.replicate]

/-- C9 counterexample: the insertion performed by the send path (happy
path) and the iteration performed by the termination path both access the
pending map with the mutex NOT held, refuting the claim that every read
and write of the mapping runs under the table mutex. -/
theorem table_mutex_claim_counterexample :
    tableOpsLocked (sendTrace true true) = false ∧
    tableOpsLocked (onLogoutTrace 1) = false := by
  decide

/-- C9 amended: the inbound-delivery path's lookup-and-removal holds the
mutex, and so does the send path's transmit-failure cleanup removal; but
the insertion in send and the iteration in OnLogout access the map with
the mutex free. Entries are added by the call path and removed either by
the inbound-delivery path or by the call path itself when the transmit
fails (restoring the prior table for a fresh id); the termination path
removes nothing. -/
theorem table_mutex_discipline_amended :
    (∀ matched, tableOpsLocked (fromAppTrace matched) = true) ∧
    tableOpStatuses false (sendTrace true true) = [false] ∧
    tableOpStatuses false (sendTrace true false) = [false, true] ∧
    (∀ n, tableOpStatuses false (onLogoutTrace n) = List.replicate n false) ∧
    (∀ c : ClientState, (onLogout c).1.pending.length = c.pending.length) ∧
    (∀ (c : ClientState) (id : String) (m : Msg) (now : String) (e : GoError),
      mapGet c.pending id = none →
        (send c id m now (Except.error e)).1.pending = c.pending) := by
  refine ⟨?_, by decide, by decide, ?_, ?_, ?_⟩
  · intro matched
    cases matched <;> decide
  · intro n
    simp [onLogoutTrace, tableOpStatuses, onLogoutIter_statuses n]
  · intro c
    simp [onLogout, drainLoop_length c.pending]
  · intro c id m now e h
    by_cases hc : c.connected
    · simp [send, register, hc, mapDelete_mapInsert_fresh c.pending id _ h]
    · simp [send, register, hc]

/-- Witness for C9 amended: all hypotheses discharged on concrete inputs. -/
theorem table_mutex_discipline_amended_witness :
    tableOpsLocked (fromAppTrace true) = true ∧
    tableOpStatuses false (onLogoutTrace 1) = List.replicate 1 false ∧
    (onLogout
        { connected := true,
          pending := [("r1",
            { request := { header := [], body := [], reparses := true },
              response := none, doneMsgs := [], doneClosed := false })],
          beginString := "FIX.4.4", targetCompID := "SPOT",
          senderCompID := "EXAMPLE" }).1.pending.length = 1 ∧
    (send
        { connected := true, pending := [],
          beginString := "FIX.4.4", targetCompID := "SPOT",
          senderCompID := "EXAMPLE" }
        "r1" { header := [], body := [], reparses := true } "t0"
        (Except.error GoError.transmitFailed)).1.pending = [] := by
  refine ⟨table_mutex_discipline_amended.1 true,
    table_mutex_discipline_amended.2.2.2.1 1, ?_, ?_⟩
  · have := table_mutex_discipline_amended.2.2.2.2.1
      { connected := true,
        pending := [("r1",
          { request := { header := [], body := [], reparses := true },
            response := none, doneMsgs := [], doneClosed := false })],
        beginString := "FIX.4.4", targetCompID := "SPOT",
        senderCompID := "EXAMPLE" }
    simpa using this
  · exact table_mutex_discipline_amended.2.2.2.2.2
      { connected := true, pending := [],
        beginString := "FIX.4.4", targetCompID := "SPOT",
        senderCompID := "EXAMPLE" }
      "r1" { header := [], body := [], reparses := true } "t0"
      GoError.transmitFailed (by decide)

/-- Helper: integer parsing only fails with its own parse error. -/
theorem goParseInt_error_shape (s : String) (e : GoError)
    (h : goParseInt s = Except.error e) : e = GoError.parseIntInvalid s := by
  unfold goParseInt at h
  dsimp only at h
  repeat' split at h
  all_goals first
    | (injection h with h; exact h.symm)
    | simp at h

/-- Helper: decimal parsing only fails with its own parse error. -/
theorem goParseDecimal_error_shape (s : String) (e : GoError)
    (h : goParseDecimal s = Except.error e) : e = GoError.parseFloatInvalid s := by
  unfold goParseDecimal at h
  dsimp only at h
  repeat' split at h
  all_goals first
    | (injection h with h; exact h.symm)
    | simp at h

/-- Helper: micros time parsing only fails with its own parse error. -/
theorem goParseTimeMicros_error_shape (s : String) (e : GoError)
    (h : goParseTimeMicros s = Except.error e) : e = GoError.parseTimeInvalid s := by
  unfold goParseTimeMicros at h
  dsimp only at h
  repeat' split at h
  all_goals first
    | (injection h with h; exact h.symm)
    | simp at h

/-- Helper: timestamp parsing only fails with its own parse error. -/
theorem goParseUTCTimestamp_error_shape (s : String) (e : GoError)
    (h : goParseUTCTimestamp s = Except.error e) : e = GoError.parseTimeInvalid s := by
  unfold goParseUTCTimestamp at h
  dsimp only at h
  repeat' split at h
  all_goals first
    | (injection h with h; exact h.symm)
    | simp at h

/-- Helper: no getter of the decode chain after the rejection branch can
produce the rejection-reason error. -/
theorem getSymbol_not_reason (m : Msg) (e : GoError) (h : getSymbol m = Except.error e)
    (r : String) : e ≠ GoError.reasonText r := by
  unfold getSymbol at h
  split at h
  · injection h with h
    intro hc
    rw [← h] at hc
    cases hc
  · simp at h

/-- Helper: getOrderID errors are integer-parse errors. -/
theorem getOrderID_not_reason (m : Msg) (e : GoError) (h : getOrderID m = Except.error e)
    (r : String) : e ≠ GoError.reasonText r := by
  unfold getOrderID at h
  split at h
  · rw [goParseInt_error_shape _ _ h]
    intro hc
    cases hc
  · rw [goParseInt_error_shape _ _ h]
    intro hc
    cases hc

/-- Helper: a required mapped getter errors only with field-not-found. -/
theorem getOrdType_not_reason (m : Msg) (e : GoError) (h : getOrdType m = Except.error e)
    (r : String) : e ≠ GoError.reasonText r := by
  unfold getOrdType at h
  split at h
  · injection h with h
    intro hc
    rw [← h] at hc
    cases hc
  · simp at h

/-- Helper: getSide errors only with field-not-found. -/
theorem getSide_not_reason (m : Msg) (e : GoError) (h : getSide m = Except.error e)
    (r : String) : e ≠ GoError.reasonText r := by
  unfold getSide at h
  split at h
  · injection h with h
    intro hc
    rw [← h] at hc
    cases hc
  · simp at h

/-- Helper: optional decimal getters error only with float-parse errors. -/
theorem getPrice_not_reason (m : Msg) (e : GoError) (h : getPrice m = Except.error e)
    (r : String) : e ≠ GoError.reasonText r := by
  unfold getPrice at h
  split at h
  · simp at h
  · rw [goParseDecimal_error_shape _ _ h]
    intro hc
    cases hc

/-- Helper: getOrderQty errors only with float-parse errors. -/
theorem getOrderQty_not_reason (m : Msg) (e : GoError) (h : getOrderQty m = Except.error e)
    (r : String) : e ≠ GoError.reasonText r := by
  unfold getOrderQty at h
  split at h
  · simp at h
  · rw [goParseDecimal_error_shape _ _ h]
    intro hc
    cases hc

/-- Helper: getCumQty errors only with float-parse errors. -/
theorem getCumQty_not_reason (m : Msg) (e : GoError) (h : getCumQty m = Except.error e)
    (r : String) : e ≠ GoError.reasonText r := by
  unfold getCumQty at h
  split at h
  · simp at h
  · rw [goParseDecimal_error_shape _ _ h]
    intro hc
    cases hc

/-- Helper: getCumQuoteQty errors only with float-parse errors. -/
theorem getCumQuoteQty_not_reason (m : Msg) (e : GoError)
    (h : getCumQuoteQty m = Except.error e) (r : String) : e ≠ GoError.reasonText r := by
  unfold getCumQuoteQty at h
  split at h
  · simp at h
  · rw [goParseDecimal_error_shape _ _ h]
    intro hc
    cases hc

/-- Helper: getMaxFloor errors only with float-parse errors. -/
theorem getMaxFloor_not_reason (m : Msg) (e : GoError) (h : getMaxFloor m = Except.error e)
    (r : String) : e ≠ GoError.reasonText r := by
  unfold getMaxFloor at h
  split at h
  · simp at h
  · rw [goParseDecimal_error_shape _ _ h]
    intro hc
    cases hc

/-- Helper: getTransactTime errors only with time-parse errors. -/
theorem getTransactTime_not_reason (m : Msg) (e : GoError)
    (h : getTransactTime m = Except.error e) (r : String) : e ≠ GoError.reasonText r := by
  unfold getTransactTime at h
  split at h
  · simp at h
  · rw [goParseUTCTimestamp_error_shape _ _ h]
    intro hc
    cases hc

/-- Helper: getOrderCreationTime errors only with time-parse errors. -/
theorem getOrderCreationTime_not_reason (m : Msg) (e : GoError)
    (h : getOrderCreationTime m = Except.error e) (r : String) :
    e ≠ GoError.reasonText r := by
  unfold getOrderCreationTime at h
  split at h
  · simp at h
  · rw [goParseTimeMicros_error_shape _ _ h]
    intro hc
    cases hc

/-- Helper: getWorkingTime errors only with time-parse errors. -/
theorem getWorkingTime_not_reason (m : Msg) (e : GoError)
    (h : getWorkingTime m = Except.error e) (r : String) : e ≠ GoError.reasonText r := by
  unfold getWorkingTime at h
  split at h
  · simp at h
  · rw [goParseTimeMicros_error_shape _ _ h]
    intro hc
    cases hc

/-- Helper: getOrderStatus errors only with field-not-found. -/
theorem getOrderStatus_not_reason (m : Msg) (e : GoError)
    (h : getOrderStatus m = Except.error e) (r : String) : e ≠ GoError.reasonText r := by
  unfold getOrderStatus at h
  split at h
  · injection h with h
    intro hc
    rw [← h] at hc
    cases hc
  · simp at h

/-- Helper: getText never errors. -/
theorem getText_ne_error (m : Msg) (e : GoError) : getText m ≠ Except.error e := by
  unfold getText
  split <;> simp

/-- Helper: getClientOrderID never errors. -/
theorem getClientOrderID_ne_error (m : Msg) (e : GoError) :
    getClientOrderID m ≠ Except.error e := by
  unfold getClientOrderID
  split <;> simp

/-- Helper: getTimeInForce never errors. -/
theorem getTimeInForce_ne_error (m : Msg) (e : GoError) :
    getTimeInForce m ≠ Except.error e := by
  unfold getTimeInForce
  split <;> simp

/-- Helper: the rejection-reason error can only come out of the decode
chain through the status-REJECTED branch. -/
theorem decode_reason_error_implies_rejected (m : Msg) (r : String)
    (heq : decodeExecutionReport m = Except.error (GoError.reasonText r)) :
    getOrderStatus m = Except.ok OrderStatusRejected := by
  unfold decodeExecutionReport at heq
  cases hs : getOrderStatus m with
  | error e =>
    simp only [hs] at heq
    injection heq with h2
    exact absurd h2 (getOrderStatus_not_reason m e hs r)
  | ok s =>
    simp only [hs] at heq
    by_cases hr : s = OrderStatusRejected
    · rw [hr]
    · exfalso
      have hb : (s == OrderStatusRejected) = false := by
        simp [hr]
      simp only [hb, Bool.false_eq_true, if_false] at heq
      cases h1 : getSymbol m with
      | error e =>
        simp only [h1] at heq
        injection heq with h2
        exact absurd h2 (getSymbol_not_reason m e h1 r)
      | ok symbol =>
      simp only [h1] at heq
      cases h2 : getOrderID m with
      | error e =>
        simp only [h2] at heq
        injection heq with h3
        exact absurd h3 (getOrderID_not_reason m e h2 r)
      | ok orderID =>
      simp only [h2] at heq
      cases h3 : getClientOrderID m with
      | error e => exact absurd h3 (getClientOrderID_ne_error m e)
      | ok clientOrderID =>
      simp only [h3] at heq
      cases h4 : getPrice m with
      | error e =>
        simp only [h4] at heq
        injection heq with h5
        exact absurd h5 (getPrice_not_reason m e h4 r)
      | ok price =>
      simp only [h4] at heq
      cases h5 : getOrderQty m with
      | error e =>
        simp only [h5] at heq
        injection heq with h6
        exact absurd h6 (getOrderQty_not_reason m e h5 r)
      | ok orderQty =>
      simp only [h5] at heq
      cases h6 : getCumQty m with
      | error e =>
        simp only [h6] at heq
        injection heq with h7
        exact absurd h7 (getCumQty_not_reason m e h6 r)
      | ok cumQty =>
      simp only [h6] at heq
      cases h7 : getCumQuoteQty m with
      | error e =>
        simp only [h7] at heq
        injection heq with h8
        exact absurd h8 (getCumQuoteQty_not_reason m e h7 r)
      | ok cumQuoteQty =>
      simp only [h7] at heq
      cases h8 : getTimeInForce m with
      | error e => exact absurd h8 (getTimeInForce_ne_error m e)
      | ok timeInForce =>
      simp only [h8] at heq
      cases h9 : getOrdType m with
      | error e =>
        simp only [h9] at heq
        injection heq with h10
        exact absurd h10 (getOrdType_not_reason m e h9 r)
      | ok orderType =>
      simp only [h9] at heq
      cases h10 : getSide m with
      | error e =>
        simp only [h10] at heq
        injection heq with h11
        exact absurd h11 (getSide_not_reason m e h10 r)
      | ok side =>
      simp only [h10] at heq
      cases h11 : getMaxFloor m with
      | error e =>
        simp only [h11] at heq
        injection heq with h12
        exact absurd h12 (getMaxFloor_not_reason m e h11 r)
      | ok maxFloor =>
      simp only [h11] at heq
      cases h12 : getTransactTime m with
      | error e =>
        simp only [h12] at heq
        injection heq with h13
        exact absurd h13 (getTransactTime_not_reason m e h12 r)
      | ok transactTime =>
      simp only [h12] at heq
      cases h13 : getOrderCreationTime m with
      | error e =>
        simp only [h13] at heq
        injection heq with h14
        exact absurd h14 (getOrderCreationTime_not_reason m e h13 r)
      | ok orderCreationTime =>
      simp only [h13] at heq
      cases h14 : getWorkingTime m with
      | error e =>
        simp only [h14] at heq
        injection heq with h15
        exact absurd h15 (getWorkingTime_not_reason m e h14 r)
      | ok workingTime =>
      simp only [h14] at heq
      cases heq

/-- Helper: a successful decode requires the order-id tag to be present
(absent order id runs ParseInt on the empty string, which errors). -/
theorem decode_ok_requires_orderID (m : Msg) (o : Order)
    (heq : decodeExecutionReport m = Except.ok o) :
    fieldGet m.body tagOrderID ≠ none := by
  intro hnone
  have hoid : getOrderID m = Except.error (GoError.parseIntInvalid "") := by
    unfold getOrderID
    rw [hnone]
    rfl
  unfold decodeExecutionReport at heq
  cases hs : getOrderStatus m with
  | error e =>
    simp only [hs] at heq
    cases heq
  | ok s =>
    simp only [hs] at heq
    by_cases hr : s = OrderStatusRejected
    · have hb : (s == OrderStatusRejected) = true := by
        simp [hr]
      simp only [hb, if_true] at heq
      cases ht : getText m with
      | error e => exact absurd ht (getText_ne_error m e)
      | ok reason =>
        simp only [ht] at heq
        by_cases hre : reason = ""
        · have hbe : (reason != "") = false := by
            simp [hre]
          simp only [hbe, Bool.false_eq_true, if_false] at heq
          cases h1 : getSymbol m with
          | error e =>
            simp only [h1] at heq
            cases heq
          | ok symbol =>
            simp only [h1, hoid] at heq
            cases heq
        · have hbe : (reason != "") = true := by
            simp [hre]
          simp only [hbe, if_true] at heq
          cases heq
    · have hb : (s == OrderStatusRejected) = false := by
        simp [hr]
      simp only [hb, Bool.false_eq_true, if_false] at heq
      cases h1 : getSymbol m with
      | error e =>
        simp only [h1] at heq
        cases heq
      | ok symbol =>
        simp only [h1, hoid] at heq
        cases heq

/-- C5 counterexample: an execution report whose status maps to FILLED and
whose Text field carries the non-empty string note decodes successfully -
the decoder does NOT return an error for a non-empty rejection reason when
the status is not REJECTED, refuting the unconditional reading. -/
theorem nonempty_reason_filled_decodes_counterexample :
    decodeExecutionReport
        { header := [(35, "8")],
          body := [(39, "2"), (58, "note"), (55, "BTCUSDT"), (37, "42"), (11, "c1"),
            (40, "2"), (54, "1")],
          reparses := true }
      = Except.ok
          { symbol := "BTCUSDT", orderID := 42, clientOrderID := "c1", price := ⟨0, 0⟩,
            orderQty := ⟨0, 0⟩, cumQty := ⟨0, 0⟩, cumQuoteQty := ⟨0, 0⟩, status := "FILLED",
            timeInForce := "", orderType := "LIMIT", side := "BUY",
            icebergQuantity := ⟨0, 0⟩, transactTime := ⟨""⟩, orderCreationTime := ⟨""⟩,
            workingTime := ⟨""⟩ } ∧
    getText
        { header := [(35, "8")],
          body := [(39, "2"), (58, "note"), (55, "BTCUSDT"), (37, "42"), (11, "c1"),
            (40, "2"), (54, "1")],
          reparses := true }
      = Except.ok "note" ∧
    "note" ≠ "" := by
  refine ⟨by decide, by decide, by decide⟩

/-- C5 amended: a non-empty rejection-reason (Text) field is surfaced as a
domain error carrying that reason text only when the order status maps to
REJECTED; for any other status the decoder never produces a
rejection-reason error, whatever the Text field holds. -/
theorem reason_error_iff_rejected_status :
    (∀ (m : Msg) (reason : String),
      getOrderStatus m = Except.ok OrderStatusRejected →
      getText m = Except.ok reason → reason ≠ "" →
      decodeExecutionReport m = Except.error (GoError.reasonText reason)) ∧
    (∀ (m : Msg) (r : String),
      decodeExecutionReport m = Except.error (GoError.reasonText r) →
      getOrderStatus m = Except.ok OrderStatusRejected) := by
  constructor
  · intro m reason hs ht hr
    have hbe : (reason != "") = true := by
      simp [hr]
    simp [decodeExecutionReport, hs, ht, hbe]
  · exact decode_reason_error_implies_rejected

/-- Witness for C5 amended: a concrete rejected report with a reason, and
the concrete reason error it decodes to. -/
theorem reason_error_iff_rejected_status_witness :
    decodeExecutionReport
        { header := [(35, "8")],
          body := [(39, "8"), (58, "Account has insufficient balance")],
          reparses := true }
      = Except.error (GoError.reasonText "Account has insufficient balance") ∧
    getOrderStatus
        { header := [(35, "8")],
          body := [(39, "8"), (58, "Account has insufficient balance")],
          reparses := true }
      = Except.ok OrderStatusRejected := by
  constructor
  · exact reason_error_iff_rejected_status.1
      { header := [(35, "8")],
        body := [(39, "8"), (58, "Account has insufficient balance")],
        reparses := true }
      "Account has insufficient balance" (by decide) (by decide) (by decide)
  · exact reason_error_iff_rejected_status.2
      { header := [(35, "8")],
        body := [(39, "8"), (58, "Account has insufficient balance")],
        reparses := true }
      "Account has insufficient balance"
      (reason_error_iff_rejected_status.1
        { header := [(35, "8")],
          body := [(39, "8"), (58, "Account has insufficient balance")],
          reparses := true }
        "Account has insufficient balance" (by decide) (by decide) (by decide))

/-- C6 counterexample: an execution report without the OrderID tag does
NOT decode to an Order with a zero order identifier - the decoder fails
with the integer-parse error of the empty string. -/
theorem absent_orderID_decode_fails_counterexample :
    decodeExecutionReport
        { header := [(35, "8")],
          body := [(39, "0"), (55, "BTCUSDT"), (11, "c1"), (40, "1"), (54, "1")],
          reparses := true }
      = Except.error (GoError.parseIntInvalid "") := by
  decide

/-- C6 amended: with the order identifier present and parseable, every
other absent optional field defaults to the zero value of its type and
present fields are extracted and mapped exactly (wire code 2 maps to
FILLED, and so on); but an absent order identifier makes the decoder fail
with the integer-parse error of the empty string instead of defaulting
to zero. -/
theorem decode_zero_defaults_except_orderID :
    (∀ (sym st ot sd oid : String) (n : Int),
      goParseInt oid = Except.ok n →
      decodeExecutionReport (mkExecReport sym st ot sd oid)
        = Except.ok
            { symbol := sym, orderID := n, clientOrderID := "", price := ⟨0, 0⟩,
              orderQty := ⟨0, 0⟩, cumQty := ⟨0, 0⟩, cumQuoteQty := ⟨0, 0⟩,
              status := mappedOrderStatus st, timeInForce := "",
              orderType := mappedOrderType ot, side := mappedSideType sd,
              icebergQuantity := ⟨0, 0⟩, transactTime := ⟨""⟩,
              orderCreationTime := ⟨""⟩, workingTime := ⟨""⟩ }) ∧
    (∀ (m : Msg) (o : Order),
      fieldGet m.body tagOrderID = none → decodeExecutionReport m ≠ Except.ok o) ∧
    decodeExecutionReport
        { header := [(35, "8")],
          body := [(39, "2"), (55, "BTCUSDT"), (37, "12345"), (11, "abc"),
            (44, "0.5"), (38, "2"), (14, "1.5"), (25017, "0.75"), (59, "1"),
            (40, "2"), (54, "1"), (111, "0.1"), (60, "20240627-11:17:25.223"),
            (25018, "20240627-11:17:25.223000"), (25023, "20240627-11:17:25.224000")],
          reparses := true }
      = Except.ok
          { symbol := "BTCUSDT", orderID := 12345, clientOrderID := "abc",
            price := ⟨5, 1⟩, orderQty := ⟨2, 0⟩, cumQty := ⟨15, 1⟩, cumQuoteQty := ⟨75, 2⟩,
            status := OrderStatusFilled, timeInForce := "GOOD_TILL_CANCEL",
            orderType := "LIMIT", side := "BUY", icebergQuantity := ⟨1, 1⟩,
            transactTime := ⟨"20240627-11:17:25.223"⟩,
            orderCreationTime := ⟨"20240627-11:17:25.223000"⟩,
            workingTime := ⟨"20240627-11:17:25.224000"⟩ } := by
  refine ⟨?_, ?_, by decide⟩
  · intro sym st ot sd oid n h
    have h1 : getOrderStatus (mkExecReport sym st ot sd oid)
        = Except.ok (mappedOrderStatus st) := rfl
    have h2 : getText (mkExecReport sym st ot sd oid) = Except.ok "" := rfl
    have h3 : getSymbol (mkExecReport sym st ot sd oid) = Except.ok sym := rfl
    have h4 : getOrderID (mkExecReport sym st ot sd oid) = goParseInt oid := rfl
    have h5 : getClientOrderID (mkExecReport sym st ot sd oid) = Except.ok "" := rfl
    have h6 : getPrice (mkExecReport sym st ot sd oid) = Except.ok ⟨0, 0⟩ := rfl
    have h7 : getOrderQty (mkExecReport sym st ot sd oid) = Except.ok ⟨0, 0⟩ := rfl
    have h8 : getCumQty (mkExecReport sym st ot sd oid) = Except.ok ⟨0, 0⟩ := rfl
    have h9 : getCumQuoteQty (mkExecReport sym st ot sd oid) = Except.ok ⟨0, 0⟩ := rfl
    have h10 : getTimeInForce (mkExecReport sym st ot sd oid) = Except.ok "" := rfl
    have h11 : getOrdType (mkExecReport sym st ot sd oid)
        = Except.ok (mappedOrderType ot) := rfl
    have h12 : getSide (mkExecReport sym st ot sd oid)
        = Except.ok (mappedSideType sd) := rfl
    have h13 : getMaxFloor (mkExecReport sym st ot sd oid) = Except.ok ⟨0, 0⟩ := rfl
    have h14 : getTransactTime (mkExecReport sym st ot sd oid) = Except.ok ⟨""⟩ := rfl
    have h15 : getOrderCreationTime (mkExecReport sym st ot sd oid)
        = Except.ok ⟨""⟩ := rfl
    have h16 : getWorkingTime (mkExecReport sym st ot sd oid) = Except.ok ⟨""⟩ := rfl
    by_cases hb : mappedOrderStatus st = OrderStatusRejected
    · simp [decodeExecutionReport, h1, h2, h3, h4, h5, h6, h7, h8, h9, h10, h11,
        h12, h13, h14, h15, h16, h, hb]
    · simp [decodeExecutionReport, h1, h2, h3, h4, h5, h6, h7, h8, h9, h10, h11,
        h12, h13, h14, h15, h16, h, hb]
  · intro m o hnone heq
    exact decode_ok_requires_orderID m o heq hnone

/-- Witness for C6 amended: the minimal message with order id 7 and the
absent-order-id hypothesis at a concrete message. -/
theorem decode_zero_defaults_except_orderID_witness :
    decodeExecutionReport (mkExecReport "BTCUSDT" "2" "2" "1" "7")
      = Except.ok
          { symbol := "BTCUSDT", orderID := 7, clientOrderID := "", price := ⟨0, 0⟩,
            orderQty := ⟨0, 0⟩, cumQty := ⟨0, 0⟩, cumQuoteQty := ⟨0, 0⟩,
            status := mappedOrderStatus "2", timeInForce := "",
            orderType := mappedOrderType "2", side := mappedSideType "1",
            icebergQuantity := ⟨0, 0⟩, transactTime := ⟨""⟩, orderCreationTime := ⟨""⟩,
            workingTime := ⟨""⟩ } ∧
    decodeExecutionReport
        { header := [(35, "8")], body := [(39, "0"), (55, "X"), (40, "1"), (54, "1")],
          reparses := true }
      ≠ Except.ok
          { symbol := "X", orderID := 0, clientOrderID := "", price := ⟨0, 0⟩,
            orderQty := ⟨0, 0⟩, cumQty := ⟨0, 0⟩, cumQuoteQty := ⟨0, 0⟩, status := "NEW",
            timeInForce := "", orderType := "MARKET", side := "BUY",
            icebergQuantity := ⟨0, 0⟩, transactTime := ⟨""⟩, orderCreationTime := ⟨""⟩,
            workingTime := ⟨""⟩ } := by
  constructor
  · exact decode_zero_defaults_except_orderID.1 "BTCUSDT" "2" "2" "1" "7" 7 (by decide)
  · exact decode_zero_defaults_except_orderID.2.1
      { header := [(35, "8")], body := [(39, "0"), (55, "X"), (40, "1"), (54, "1")],
        reparses := true }
      { symbol := "X", orderID := 0, clientOrderID := "", price := ⟨0, 0⟩,
        orderQty := ⟨0, 0⟩, cumQty := ⟨0, 0⟩, cumQuoteQty := ⟨0, 0⟩, status := "NEW",
        timeInForce := "", orderType := "MARKET", side := "BUY",
        icebergQuantity := ⟨0, 0⟩, transactTime := ⟨""⟩, orderCreationTime := ⟨""⟩,
        workingTime := ⟨""⟩ }
      (by decide)

/-- Helper: the polling loop only succeeds after an observation in which
neither done condition held and the connected flag read true. -/
theorem startLoop_ok_has_connected (obs : List StartObs)
    (h : startLoop obs = some (Except.ok ())) :
    ∃ o ∈ obs, o.timedOut = false ∧ o.cancelled = false ∧ o.connected = true := by
  induction obs with
  | nil => simp [startLoop] at h
  | cons o rest ih =>
    simp only [startLoop] at h
    by_cases hd : (o.timedOut || o.cancelled) = true
    · rw [if_pos hd] at h
      simp at h
    · rw [if_neg hd] at h
      have ht : o.timedOut = false := by
        revert hd
        cases o.timedOut <;> simp
      have hcl : o.cancelled = false := by
        revert hd
        cases o.cancelled <;> simp
      by_cases hc : o.connected = true
      · exact ⟨o, List.mem_cons_self o rest, ht, hcl, hc⟩
      · rw [if_neg hc] at h
        obtain ⟨o', ho', hh⟩ := ih h
        exact ⟨o', List.mem_cons_of_mem o ho', hh⟩

/-- C10. Construction implies connected: NewClient never returns a Client
together with an error; and it returns a Client only when the settings
object exists and carries BeginString, TargetCompID and SenderCompID
(which become the client's identity), the key file parses as a PEM
PRIVATE KEY block holding a PKCS8 Ed25519 key, the engine initiator is
created and started, and the polling loop of Start observed the connected
flag true before the handshake deadline or a cancellation - so the
returned client is already connected and has an empty pending table. -/
theorem newClient_connected_on_success :
    (∀ (env : NewClientEnv) (c : ClientState) (e : GoError),
      NewClient env ≠ some (some c, some e)) ∧
    (∀ (env : NewClientEnv) (c : ClientState) (err : Option GoError),
      NewClient env = some (some c, err) →
        err = none ∧
        (∃ gs, env.settings = some gs ∧
          gs.beginString = some c.beginString ∧
          gs.targetCompID = some c.targetCompID ∧
          gs.senderCompID = some c.senderCompID) ∧
        (∃ k, GetEd25519PrivateKeyFromFile env.keyFile = Except.ok k) ∧
        env.initiatorCreate = Except.ok () ∧
        clientStart env.engineStart env.obs = some (Except.ok ()) ∧
        (∃ o ∈ env.obs, o.timedOut = false ∧ o.cancelled = false ∧ o.connected = true) ∧
        c.connected = true ∧ c.pending = []) := by
  have main : ∀ (env : NewClientEnv) (c : ClientState) (err : Option GoError),
      NewClient env = some (some c, err) →
        err = none ∧
        (∃ gs, env.settings = some gs ∧
          gs.beginString = some c.beginString ∧
          gs.targetCompID = some c.targetCompID ∧
          gs.senderCompID = some c.senderCompID) ∧
        (∃ k, GetEd25519PrivateKeyFromFile env.keyFile = Except.ok k) ∧
        env.initiatorCreate = Except.ok () ∧
        clientStart env.engineStart env.obs = some (Except.ok ()) ∧
        (∃ o ∈ env.obs, o.timedOut = false ∧ o.cancelled = false ∧ o.connected = true) ∧
        c.connected = true ∧ c.pending = [] := by
    intro env c err h
    unfold NewClient at h
    cases hs : env.settings with
    | none => simp [hs] at h
    | some gs =>
      simp only [hs] at h
      cases hbs : gs.beginString with
      | none => simp [getSetting, hbs] at h
      | some bs =>
        simp only [getSetting, hbs] at h
        cases hts : gs.targetCompID with
        | none => simp [getSetting, hts] at h
        | some ts =>
          simp only [hts] at h
          cases hss : gs.senderCompID with
          | none => simp [getSetting, hss] at h
          | some ss =>
            simp only [hss] at h
            cases hk : GetEd25519PrivateKeyFromFile env.keyFile with
            | error e => simp [hk] at h
            | ok k =>
              simp only [hk] at h
              cases hic : env.initiatorCreate with
              | error e => simp [hic] at h
              | ok u =>
                simp only [hic] at h
                cases hcs : clientStart env.engineStart env.obs with
                | none => simp [hcs] at h
                | some r =>
                  cases r with
                  | error e => simp [hcs] at h
                  | ok v =>
                    simp only [hcs] at h
                    simp only [Option.some.injEq, Prod.mk.injEq] at h
                    obtain ⟨hc1, herr⟩ := h
                    have hsl : startLoop env.obs = some (Except.ok ()) := by
                      unfold clientStart at hcs
                      cases he : env.engineStart with
                      | error e2 =>
                        simp only [he] at hcs
                        simp at hcs
                      | ok u2 =>
                        simp only [he] at hcs
                        exact hcs
                    subst hc1
                    refine ⟨herr.symm, ⟨gs, rfl, hbs, hts, hss⟩, ⟨k, rfl⟩, rfl, rfl,
                      startLoop_ok_has_connected env.obs hsl, rfl, rfl⟩
  refine ⟨?_, main⟩
  intro env c e h
  have := (main env c (some e) h).1
  cases this

/-- Witness for C10: a concrete environment with all three settings, a
valid Ed25519 PEM key file, a successful engine start, and a connected
observation. -/
theorem newClient_connected_on_success_witness :
    NewClient
        ⟨some ⟨some "FIX.4.4", some "SPOT", some "EXAMPLE"⟩,
          Except.ok ⟨some ("PRIVATE KEY", Pkcs8Content.ed25519Key [7])⟩,
          Except.ok (), Except.ok (), [⟨false, false, true⟩]⟩
      ≠ some (some ⟨true, [], "FIX.4.4", "SPOT", "EXAMPLE"⟩, some GoError.closed) ∧
    (⟨true, [], "FIX.4.4", "SPOT", "EXAMPLE"⟩ : ClientState).connected = true := by
  constructor
  · exact newClient_connected_on_success.1
      ⟨some ⟨some "FIX.4.4", some "SPOT", some "EXAMPLE"⟩,
        Except.ok ⟨some ("PRIVATE KEY", Pkcs8Content.ed25519Key [7])⟩,
        Except.ok (), Except.ok (), [⟨false, false, true⟩]⟩
      ⟨true, [], "FIX.4.4", "SPOT", "EXAMPLE"⟩ GoError.closed
  · exact (newClient_connected_on_success.2
      ⟨some ⟨some "FIX.4.4", some "SPOT", some "EXAMPLE"⟩,
        Except.ok ⟨some ("PRIVATE KEY", Pkcs8Content.ed25519Key [7])⟩,
        Except.ok (), Except.ok (), [⟨false, false, true⟩]⟩
      ⟨true, [], "FIX.4.4", "SPOT", "EXAMPLE"⟩ none (by decide)).2.2.2.2.2.2.1

/-- Payload structure of the logon signature on the documented fixture
identities: with the signature primitive instantiated by the identity
function, the bytes fed to the signer are exactly the five fields logon
message type A, senderCompID, targetCompID, the literal sequence number
1, and sendingTime, joined by the single 0x01 byte. The byte-for-byte
equality of the real signature with the reference base64 string depends
on the external ed25519.Sign primitive and on the reference key file
(sample/ed25519.pem), which are not part of these sources. -/
theorem getLogonRawData_fixture_payload :
    GetLogonRawData (fun _ m => m) [] "EXAMPLE" "SPOT" "20240627-11:17:25.223"
      = String.mk (base64Encode
          (("A\x01EXAMPLE\x01SPOT\x011\x0120240627-11:17:25.223").toList.map Char.toNat)) := by
  decide

end BinanceFix

